import Mathlib

/-!
Verification of the inbound notifications substream handler
(`client/network/src/protocol/generic_proto/handler/notif_in.rs`).

The handler is a per-connection state machine holding at most one inbound
substream, a FIFO queue of output events, and a counter
(`pending_accept_refuses`) reconciling in-flight `Accept`/`Refuse`
decisions against possibly-stale `OpenRequest`s.
-/

/-- Byte strings are modelled as lists of naturals. -/
abbrev Bytes := List Nat

/-- Outcome of one poll of the negotiated substream: still pending,
a ready inbound message, or end-of-stream. -/
inductive SubPollOutcome where
  | pending
  | readyMsg (msg : Bytes)
  | readyEnd
  deriving DecidableEq, Repr

/-- Modelled from the spec: `NotificationsInSubstream` (from the upgrade
module, which is not part of this corpus) is described as exposing a
non-blocking "try to produce next inbound message, or report
end-of-stream" operation and a one-shot "send handshake payload"
operation.  We instrument it with the record of handshake payloads sent
(most recent last) and a script of poll outcomes the peer will produce. -/
structure NotificationsInSubstream where
  handshakes : List Bytes
  script : List SubPollOutcome
  deriving DecidableEq, Repr

/-- Modelled from the spec: the substream's handshake-send operation;
records the payload passed to it. -/
def NotificationsInSubstream.send_handshake
    (s : NotificationsInSubstream) (msg : Bytes) : NotificationsInSubstream :=
  { s with handshakes := s.handshakes ++ [msg] }

/-- Modelled from the spec: one advance of the substream, consuming the
next scripted outcome (an exhausted script stays pending). -/
def NotificationsInSubstream.poll
    (s : NotificationsInSubstream) : SubPollOutcome × NotificationsInSubstream :=
  match s.script with
  | [] => (SubPollOutcome.pending, s)
  | o :: rest => (o, { s with script := rest })

/-- Event that can be received by a `NotifsInHandler`
(`enum NotifsInHandlerIn`). -/
inductive NotifsInHandlerIn where
  | Accept (msg : Bytes)
  | Refuse
  deriving DecidableEq, Repr

/-- Event that can be emitted by a `NotifsInHandler`
(`enum NotifsInHandlerOut`). -/
inductive NotifsInHandlerOut where
  | OpenRequest
  | Closed
  | Notif (msg : Bytes)
  deriving DecidableEq, Repr

/-- The handler state (`struct NotifsInHandler`): at most one held
substream, the stale-decision counter, and the FIFO queue of output
events (only ever pushed at the back, popped at the front). -/
structure NotifsInHandler where
  in_protocol : Bytes
  substream : Option NotificationsInSubstream
  pending_accept_refuses : Nat
  events_queue : List NotifsInHandlerOut
  deriving DecidableEq, Repr

/-- `struct NotifsInHandlerProto`: the per-protocol factory. -/
structure NotifsInHandlerProto where
  in_protocol : Bytes
  deriving DecidableEq, Repr

/-- `NotifsInHandlerProto::into_handler`: a fresh handler with no
substream, zero pending responses and an empty queue. -/
def NotifsInHandlerProto.into_handler (p : NotifsInHandlerProto) : NotifsInHandler :=
  { in_protocol := p.in_protocol
    substream := none
    pending_accept_refuses := 0
    events_queue := [] }

/-- Rust's `usize::checked_sub`. -/
def checked_sub (a b : Nat) : Option Nat :=
  if a < b then none else some (a - b)

/-- `NotifsInHandler::inject_fully_negotiated_inbound`: a duplicate
inbound substream is discarded; otherwise the new substream is stored,
an `OpenRequest` is queued, and the counter is incremented. -/
def NotifsInHandler.inject_fully_negotiated_inbound
    (h : NotifsInHandler) (proto : NotificationsInSubstream) : NotifsInHandler :=
  if h.substream.isSome then
    h
  else
    { h with
      substream := some proto
      events_queue := h.events_queue ++ [NotifsInHandlerOut.OpenRequest]
      pending_accept_refuses := h.pending_accept_refuses + 1 }

/-- `NotifsInHandler::inject_event`: decrement the counter with
`checked_sub` (underflow logs and discards); a still-positive counter
means the decision is stale and is discarded; at zero the decision is
applied to whatever substream is currently held. -/
def NotifsInHandler.inject_event
    (h : NotifsInHandler) (message : NotifsInHandlerIn) : NotifsInHandler :=
  match checked_sub h.pending_accept_refuses 1 with
  | none => h
  | some v =>
    let h1 := { h with pending_accept_refuses := v }
    if h1.pending_accept_refuses ≠ 0 then
      h1
    else
      match message, h1.substream with
      | NotifsInHandlerIn.Accept msg, some sub =>
          { h1 with substream := some (sub.send_handshake msg) }
      | NotifsInHandlerIn.Accept _, none => h1
      | NotifsInHandlerIn.Refuse, _ => { h1 with substream := none }

/-- `enum KeepAlive` (only the variants this handler produces). -/
inductive KeepAlive where
  | Yes
  | No
  deriving DecidableEq, Repr

/-- `NotifsInHandler::connection_keep_alive`. -/
def NotifsInHandler.connection_keep_alive (h : NotifsInHandler) : KeepAlive :=
  if h.substream.isSome then KeepAlive.Yes else KeepAlive.No

/-- Result of one poll of the handler. -/
inductive HandlerPoll where
  | Ready (ev : NotifsInHandlerOut)
  | Pending
  deriving DecidableEq, Repr

/-- `NotifsInHandler::poll`: flush the front of the events queue if
non-empty; otherwise advance the held substream once, turning a ready
message into `Notif` and end-of-stream into `Closed` (dropping the
substream). -/
def NotifsInHandler.poll (h : NotifsInHandler) : HandlerPoll × NotifsInHandler :=
  match h.events_queue with
  | ev :: rest => (HandlerPoll.Ready ev, { h with events_queue := rest })
  | [] =>
    match h.substream with
    | none => (HandlerPoll.Pending, h)
    | some s =>
      match s.poll with
      | (SubPollOutcome.pending, s1) =>
          (HandlerPoll.Pending, { h with substream := some s1 })
      | (SubPollOutcome.readyMsg msg, s1) =>
          (HandlerPoll.Ready (NotifsInHandlerOut.Notif msg), { h with substream := some s1 })
      | (SubPollOutcome.readyEnd, _) =>
          (HandlerPoll.Ready NotifsInHandlerOut.Closed, { h with substream := none })

/-- The handler states reachable from a freshly constructed handler by
the operations the connection layer may invoke. -/
inductive Reachable : NotifsInHandler → Prop where
  | init (p : NotifsInHandlerProto) : Reachable p.into_handler
  | inbound {h : NotifsInHandler} (s : NotificationsInSubstream) :
      Reachable h → Reachable (h.inject_fully_negotiated_inbound s)
  | event {h : NotifsInHandler} (m : NotifsInHandlerIn) :
      Reachable h → Reachable (h.inject_event m)
  | polled {h : NotifsInHandler} :
      Reachable h → Reachable h.poll.2

/-! ## Helper lemmas -/

/-- `inject_event` never touches the events queue. -/
theorem inject_event_queue_eq (h : NotifsInHandler) (m : NotifsInHandlerIn) :
    (h.inject_event m).events_queue = h.events_queue := by
  unfold NotifsInHandler.inject_event
  cases checked_sub h.pending_accept_refuses 1 with
  | none => rfl
  | some v =>
    by_cases hv : v = 0 <;>
      cases m <;>
      cases h.substream <;>
      simp [hv]

/-- One poll leaves the events queue equal or pops its front. -/
theorem poll_queue_cases (h : NotifsInHandler) :
    h.poll.2.events_queue = h.events_queue ∨
    h.poll.2.events_queue = h.events_queue.tail := by
  unfold NotifsInHandler.poll
  cases hq : h.events_queue with
  | cons ev rest => right; simp
  | nil =>
    left
    cases hs : h.substream with
    | none => simp [hq]
    | some s =>
      cases hp : s.poll with
      | mk o s1 => cases o <;> simp [hp, hq]

/-! ## Claim theorems -/

/-- C1: when `pending_accept_refuses > 1`, any `Accept`/`Refuse` decision
only decrements the counter: the substream, its handshake record, and
the events queue are all unchanged (the stale decision is discarded). -/
theorem c1_stale_decision_discarded (h : NotifsInHandler) (m : NotifsInHandlerIn)
    (hp : 1 < h.pending_accept_refuses) :
    (h.inject_event m).pending_accept_refuses = h.pending_accept_refuses - 1 ∧
    (h.inject_event m).substream = h.substream ∧
    (h.inject_event m).events_queue = h.events_queue := by
  have h0 : ¬ h.pending_accept_refuses < 1 := by omega
  have h1 : h.pending_accept_refuses - 1 ≠ 0 := by omega
  simp [NotifsInHandler.inject_event, checked_sub, h0, h1]

/-- C1 witness. -/
theorem c1_witness :
    (({ in_protocol := [7], substream := some { handshakes := [], script := [] },
        pending_accept_refuses := 2,
        events_queue := [NotifsInHandlerOut.OpenRequest] } :
          NotifsInHandler).inject_event NotifsInHandlerIn.Refuse).pending_accept_refuses = 1 ∧
    (({ in_protocol := [7], substream := some { handshakes := [], script := [] },
        pending_accept_refuses := 2,
        events_queue := [NotifsInHandlerOut.OpenRequest] } :
          NotifsInHandler).inject_event NotifsInHandlerIn.Refuse).substream =
      some { handshakes := [], script := [] } ∧
    (({ in_protocol := [7], substream := some { handshakes := [], script := [] },
        pending_accept_refuses := 2,
        events_queue := [NotifsInHandlerOut.OpenRequest] } :
          NotifsInHandler).inject_event NotifsInHandlerIn.Refuse).events_queue =
      [NotifsInHandlerOut.OpenRequest] :=
  c1_stale_decision_discarded _ NotifsInHandlerIn.Refuse (by decide)

/-- C2: a decision arriving with `pending_accept_refuses = 0` is an
underflow; it is discarded with no state mutation at all. -/
theorem c2_underflow_discarded (h : NotifsInHandler) (m : NotifsInHandlerIn)
    (hp : h.pending_accept_refuses = 0) :
    h.inject_event m = h := by
  simp [NotifsInHandler.inject_event, checked_sub, hp]

/-- C2 witness. -/
theorem c2_witness :
    (({ in_protocol := [7], substream := none, pending_accept_refuses := 0,
        events_queue := [] } : NotifsInHandler).inject_event
          (NotifsInHandlerIn.Accept [1, 2])) =
      { in_protocol := [7], substream := none, pending_accept_refuses := 0,
        events_queue := [] } :=
  c2_underflow_discarded _ (NotifsInHandlerIn.Accept [1, 2]) (by decide)

/-- C3: with exactly one pending response, `Accept(payload)` drives the
counter to zero, leaves the queue untouched, and — via `Option.map` over
the held substream — either appends the exact payload once to the held
substream's handshake record (the substream stays held), or is a no-op
on the substream when none is held. -/
theorem c3_accept_applies_handshake (h : NotifsInHandler) (payload : Bytes)
    (hp : h.pending_accept_refuses = 1) :
    (h.inject_event (NotifsInHandlerIn.Accept payload)).pending_accept_refuses = 0 ∧
    (h.inject_event (NotifsInHandlerIn.Accept payload)).events_queue = h.events_queue ∧
    (h.inject_event (NotifsInHandlerIn.Accept payload)).substream =
      h.substream.map (fun s => { s with handshakes := s.handshakes ++ [payload] }) := by
  cases hs : h.substream with
  | none =>
    simp [NotifsInHandler.inject_event, checked_sub, hp, hs]
  | some s =>
    simp [NotifsInHandler.inject_event, checked_sub, hp, hs,
      NotificationsInSubstream.send_handshake]

/-- C3 witness. -/
theorem c3_witness :
    (({ in_protocol := [7], substream := some { handshakes := [], script := [] },
        pending_accept_refuses := 1, events_queue := [] } :
          NotifsInHandler).inject_event
            (NotifsInHandlerIn.Accept [5, 6])).pending_accept_refuses = 0 ∧
    (({ in_protocol := [7], substream := some { handshakes := [], script := [] },
        pending_accept_refuses := 1, events_queue := [] } :
          NotifsInHandler).inject_event
            (NotifsInHandlerIn.Accept [5, 6])).events_queue = [] ∧
    (({ in_protocol := [7], substream := some { handshakes := [], script := [] },
        pending_accept_refuses := 1, events_queue := [] } :
          NotifsInHandler).inject_event
            (NotifsInHandlerIn.Accept [5, 6])).substream =
      (some { handshakes := [], script := [] } :
          Option NotificationsInSubstream).map
        (fun s => { s with handshakes := s.handshakes ++ [[5, 6]] }) :=
  c3_accept_applies_handshake _ [5, 6] (by decide)

/-- C4: with exactly one pending response, `Refuse` unconditionally
drops the held substream and zeroes the counter, returning to Idle. -/
theorem c4_refuse_drops_substream (h : NotifsInHandler)
    (hp : h.pending_accept_refuses = 1) :
    (h.inject_event NotifsInHandlerIn.Refuse).substream = none ∧
    (h.inject_event NotifsInHandlerIn.Refuse).pending_accept_refuses = 0 := by
  cases hs : h.substream <;>
    simp [NotifsInHandler.inject_event, checked_sub, hp, hs]

/-- C4 witness. -/
theorem c4_witness :
    (({ in_protocol := [7], substream := some { handshakes := [], script := [] },
        pending_accept_refuses := 1, events_queue := [] } :
          NotifsInHandler).inject_event NotifsInHandlerIn.Refuse).substream = none ∧
    (({ in_protocol := [7], substream := some { handshakes := [], script := [] },
        pending_accept_refuses := 1, events_queue := [] } :
          NotifsInHandler).inject_event
            NotifsInHandlerIn.Refuse).pending_accept_refuses = 0 :=
  c4_refuse_drops_substream _ (by decide)

/-- C5: a second inbound substream negotiated while one is already held
is discarded: the handler is completely unchanged, so the previously
held substream is still the one held. -/
theorem c5_duplicate_inbound_discarded (h : NotifsInHandler)
    (s0 s : NotificationsInSubstream) (hs : h.substream = some s0) :
    h.inject_fully_negotiated_inbound s = h ∧
    (h.inject_fully_negotiated_inbound s).substream = some s0 := by
  constructor
  · simp [NotifsInHandler.inject_fully_negotiated_inbound, hs]
  · simp [NotifsInHandler.inject_fully_negotiated_inbound, hs]

/-- C5 witness. -/
theorem c5_witness :
    ({ in_protocol := [7], substream := some { handshakes := [], script := [] },
       pending_accept_refuses := 1, events_queue := [] } :
         NotifsInHandler).inject_fully_negotiated_inbound
           { handshakes := [], script := [SubPollOutcome.readyEnd] } =
      { in_protocol := [7], substream := some { handshakes := [], script := [] },
        pending_accept_refuses := 1, events_queue := [] } ∧
    (({ in_protocol := [7], substream := some { handshakes := [], script := [] },
        pending_accept_refuses := 1, events_queue := [] } :
          NotifsInHandler).inject_fully_negotiated_inbound
            { handshakes := [], script := [SubPollOutcome.readyEnd] }).substream =
      some { handshakes := [], script := [] } :=
  c5_duplicate_inbound_discarded _ _ _ (by decide)

/-- C6: an inbound substream negotiated while none is held is stored,
exactly one `OpenRequest` is appended at the back of the queue, and the
pending counter is incremented by exactly one. -/
theorem c6_inbound_stores_and_requests (h : NotifsInHandler)
    (s : NotificationsInSubstream) (hs : h.substream = none) :
    (h.inject_fully_negotiated_inbound s).substream = some s ∧
    (h.inject_fully_negotiated_inbound s).events_queue =
      h.events_queue ++ [NotifsInHandlerOut.OpenRequest] ∧
    (h.inject_fully_negotiated_inbound s).pending_accept_refuses =
      h.pending_accept_refuses + 1 := by
  simp [NotifsInHandler.inject_fully_negotiated_inbound, hs]

/-- C6 witness. -/
theorem c6_witness :
    (({ in_protocol := [7], substream := none, pending_accept_refuses := 0,
        events_queue := [] } : NotifsInHandler).inject_fully_negotiated_inbound
          { handshakes := [], script := [] }).substream =
      some { handshakes := [], script := [] } ∧
    (({ in_protocol := [7], substream := none, pending_accept_refuses := 0,
        events_queue := [] } : NotifsInHandler).inject_fully_negotiated_inbound
          { handshakes := [], script := [] }).events_queue =
      [] ++ [NotifsInHandlerOut.OpenRequest] ∧
    (({ in_protocol := [7], substream := none, pending_accept_refuses := 0,
        events_queue := [] } : NotifsInHandler).inject_fully_negotiated_inbound
          { handshakes := [], script := [] }).pending_accept_refuses = 0 + 1 :=
  c6_inbound_stores_and_requests _ _ (by decide)

/-- C7: when the events queue is non-empty, `poll` returns its front
element, leaves the tail as the new queue, and does not touch the held
substream or the pending counter (the substream is not advanced). -/
theorem c7_poll_pops_front (h : NotifsInHandler) (ev : NotifsInHandlerOut)
    (rest : List NotifsInHandlerOut) (hq : h.events_queue = ev :: rest) :
    h.poll.1 = HandlerPoll.Ready ev ∧
    h.poll.2.events_queue = rest ∧
    h.poll.2.substream = h.substream ∧
    h.poll.2.pending_accept_refuses = h.pending_accept_refuses := by
  simp [NotifsInHandler.poll, hq]

/-- C7 witness. -/
theorem c7_witness :
    ({ in_protocol := [7], substream := some { handshakes := [], script := [] },
       pending_accept_refuses := 1,
       events_queue := [NotifsInHandlerOut.OpenRequest] } :
         NotifsInHandler).poll.1 = HandlerPoll.Ready NotifsInHandlerOut.OpenRequest ∧
    ({ in_protocol := [7], substream := some { handshakes := [], script := [] },
       pending_accept_refuses := 1,
       events_queue := [NotifsInHandlerOut.OpenRequest] } :
         NotifsInHandler).poll.2.events_queue = [] ∧
    ({ in_protocol := [7], substream := some { handshakes := [], script := [] },
       pending_accept_refuses := 1,
       events_queue := [NotifsInHandlerOut.OpenRequest] } :
         NotifsInHandler).poll.2.substream =
      some { handshakes := [], script := [] } ∧
    ({ in_protocol := [7], substream := some { handshakes := [], script := [] },
       pending_accept_refuses := 1,
       events_queue := [NotifsInHandlerOut.OpenRequest] } :
         NotifsInHandler).poll.2.pending_accept_refuses = 1 :=
  c7_poll_pops_front _ NotifsInHandlerOut.OpenRequest [] (by decide)

/-- C8: when the queue is empty and the held substream reports
end-of-stream, `poll` drops the substream and returns `Closed`, leaving
`pending_accept_refuses` unchanged (no `OpenRequest` is cancelled). -/
theorem c8_eof_drops_substream_closed (h : NotifsInHandler)
    (s : NotificationsInSubstream) (rest : List SubPollOutcome)
    (hq : h.events_queue = []) (hs : h.substream = some s)
    (hscript : s.script = SubPollOutcome.readyEnd :: rest) :
    h.poll.1 = HandlerPoll.Ready NotifsInHandlerOut.Closed ∧
    h.poll.2.substream = none ∧
    h.poll.2.pending_accept_refuses = h.pending_accept_refuses := by
  simp [NotifsInHandler.poll, hq, hs, NotificationsInSubstream.poll, hscript]

/-- C8 witness. -/
theorem c8_witness :
    ({ in_protocol := [7],
       substream := some { handshakes := [], script := [SubPollOutcome.readyEnd] },
       pending_accept_refuses := 1, events_queue := [] } :
         NotifsInHandler).poll.1 = HandlerPoll.Ready NotifsInHandlerOut.Closed ∧
    ({ in_protocol := [7],
       substream := some { handshakes := [], script := [SubPollOutcome.readyEnd] },
       pending_accept_refuses := 1, events_queue := [] } :
         NotifsInHandler).poll.2.substream = none ∧
    ({ in_protocol := [7],
       substream := some { handshakes := [], script := [SubPollOutcome.readyEnd] },
       pending_accept_refuses := 1, events_queue := [] } :
         NotifsInHandler).poll.2.pending_accept_refuses = 1 :=
  c8_eof_drops_substream_closed _ { handshakes := [], script := [SubPollOutcome.readyEnd] }
    [] (by decide) (by decide) (by decide)

/-- C9: the keep-alive query answers `Yes` exactly when a substream is
held and `No` exactly when none is held; being a pure function of the
handler, it mutates nothing. -/
theorem c9_keep_alive_iff_substream (h : NotifsInHandler) :
    (h.connection_keep_alive = KeepAlive.Yes ↔ h.substream.isSome = true) ∧
    (h.connection_keep_alive = KeepAlive.No ↔ h.substream = none) := by
  cases hs : h.substream <;>
    simp [NotifsInHandler.connection_keep_alive, hs]

/-- C9 witness. -/
theorem c9_witness :
    (({ in_protocol := [7], substream := none, pending_accept_refuses := 0,
        events_queue := [] } : NotifsInHandler).connection_keep_alive =
          KeepAlive.Yes ↔
        ({ in_protocol := [7], substream := none, pending_accept_refuses := 0,
           events_queue := [] } : NotifsInHandler).substream.isSome = true) ∧
    (({ in_protocol := [7], substream := none, pending_accept_refuses := 0,
        events_queue := [] } : NotifsInHandler).connection_keep_alive =
          KeepAlive.No ↔
        ({ in_protocol := [7], substream := none, pending_accept_refuses := 0,
           events_queue := [] } : NotifsInHandler).substream = none) :=
  c9_keep_alive_iff_substream _

/-- C10: in every reachable handler state, the events queue contains
only `OpenRequest` events; `Notif` and `Closed` are returned directly
from `poll` and are never queued. -/
theorem c10_queue_only_open_requests (h : NotifsInHandler) (hr : Reachable h) :
    h.events_queue.all (fun ev => ev == NotifsInHandlerOut.OpenRequest) = true := by
  induction hr with
  | init p => simp [NotifsInHandlerProto.into_handler]
  | inbound s hprev ih =>
    rename_i h0
    by_cases hs : h0.substream.isSome = true
    · simpa [NotifsInHandler.inject_fully_negotiated_inbound, hs] using ih
    · unfold NotifsInHandler.inject_fully_negotiated_inbound
      rw [if_neg hs]
      refine List.all_eq_true.mpr ?_
      intro x hx
      simp only [List.mem_append, List.mem_singleton] at hx
      rcases hx with hx | hx
      · exact List.all_eq_true.mp ih x hx
      · simp [hx]
  | event m hprev ih =>
    rw [inject_event_queue_eq]
    exact ih
  | polled hprev ih =>
    rename_i h0
    rcases poll_queue_cases h0 with hc | hc
    · rw [hc]; exact ih
    · rw [hc]
      refine List.all_eq_true.mpr ?_
      intro x hx
      exact List.all_eq_true.mp ih x (List.mem_of_mem_tail hx)

/-- C10 witness. -/
theorem c10_witness :
    (({ in_protocol := [7] } :
        NotifsInHandlerProto).into_handler.inject_fully_negotiated_inbound
          { handshakes := [], script := [] }).events_queue.all
      (fun ev => ev == NotifsInHandlerOut.OpenRequest) = true :=
  c10_queue_only_open_requests _
    (Reachable.inbound { handshakes := [], script := [] }
      (Reachable.init { in_protocol := [7] }))
